import Mathlib

/-!
Shallow embedding of the slrc-job-assist repository (src/scraper.py and
src/main.py), covering the job-discovery pipeline: provider adapter
(run_scraper), dedup merge store (save_jobs_to_csv), keyword filter and
per-client scheduled run (scheduled_scrape), query selection (api_scrape),
client roster refresh (fetch_clients_from_airtable) and the manual trigger
endpoint (run_now).

Python dictionaries returned by the provider are modelled as records of
optional fields (None / absent key becomes Option.none); the scraper log
channel is modelled as an optional error string in the return value; the
per-client CSV file on disk is modelled as a list of rows, with
Option.none standing for a file that does not exist.
-/

set_option autoImplicit false

namespace SlrcJobAssist

/-- Raw provider job record, as a partial dictionary: each field holds the
value of the corresponding key of the SerpAPI jobs_results entry, none when
the key is absent. Only the keys read by the repository are modelled. -/
structure RawJob where
  title : Option String := none
  description : Option String := none
  company : Option String := none
  company_name : Option String := none
  link : Option String := none
  job_apply_link : Option String := none
  location : Option String := none
deriving DecidableEq

/-- One CSV row as built by both save_jobs_to_csv (scraper.py) and
scheduled_scrape / api_scrape (main.py): columns Job Title, Company Name,
Application Weblink, Location. A field that came from a missing dictionary
key is none, which pandas stores as NaN. -/
structure Row where
  jobTitle : Option String
  companyName : Option String
  applicationWeblink : Option String
  location : Option String
deriving DecidableEq

/-- Outcome of the single HTTP call made by run_scraper, at the boundary of
the job-search provider: the transport can fail (requests.get raises),
raise_for_status can raise on a non-success status, response.json can raise
on a malformed body, or a parsed payload arrives whose jobs_results key may
be absent. -/
inductive ProviderResponse where
  | transportError (msg : String)
  | httpError (status : Nat) (msg : String)
  | badJson (msg : String)
  | ok (jobsResults : Option (List RawJob))
deriving DecidableEq

/-- True on every outcome that makes run_scraper enter its except branch. -/
def ProviderResponse.fails : ProviderResponse → Bool
  | .ok _ => false
  | _ => true

/-- The q parameter sent to SerpAPI by run_scraper: the f-string
interpolation of query, a space, and location (scraper.py line 31). -/
def serpApiQ (query location : String) : String := query ++ " " ++ location

/-- Default value of the location parameter of run_scraper. -/
def defaultRegion : String := "New Zealand"

/-- Embedding of run_scraper (scraper.py lines 23 to 55). The first
component is the returned jobs list; the second models the error message
written to scraper.log and stdout by the except branch (none on success).
The try block catches every exception, so the function is total: it never
raises past this boundary. On success it returns jobs_results unchanged,
defaulting to the empty list when the key is absent. -/
def run_scraper (query location : String) (resp : ProviderResponse) :
    List RawJob × Option String :=
  match resp with
  | .transportError m => ([], some ("Error during scraping: " ++ m))
  | .httpError _ m => ([], some ("Error during scraping: " ++ m))
  | .badJson m => ([], some ("Error during scraping: " ++ m))
  | .ok jr => (jr.getD [], none)

/-- Row built by save_jobs_to_csv in scraper.py: reads keys title,
company_name, job_apply_link, location. -/
def rowOfJobScraper (j : RawJob) : Row :=
  { jobTitle := j.title
    companyName := j.company_name
    applicationWeblink := j.job_apply_link
    location := j.location }

/-- Row built by scheduled_scrape and api_scrape in main.py: reads keys
title, company, link, location (a different key set from scraper.py). -/
def rowOfJobMain (j : RawJob) : Row :=
  { jobTitle := j.title
    companyName := j.company
    applicationWeblink := j.link
    location := j.location }

/-- Kernel of pandas drop_duplicates on the Application Weblink column with
keep set to first: scan rows in order, keep a row when its link value has
not been seen yet. Pandas treats NaN link values as duplicates of each
other, matched here by comparing the Option values directly. -/
def dropDupAux (seen : List (Option String)) : List Row → List Row
  | [] => []
  | r :: rs =>
      if r.applicationWeblink ∈ seen then dropDupAux seen rs
      else r :: dropDupAux (r.applicationWeblink :: seen) rs

/-- drop_duplicates(subset=[Application Weblink], keep=first) on a row
list. -/
def drop_duplicates_by_link (rows : List Row) : List Row := dropDupAux [] rows

/-- Embedding of save_jobs_to_csv (scraper.py lines 58 to 87). The store
argument models the CSV file: none when the file does not exist, some rows
otherwise. Returns the store after the call together with the collection
size printed by the call (the Total of the merge branch, the Saved count of
the fresh-write branch, none when the early return on an empty jobs list
fires and nothing is written). Note that the fresh-write branch stores
new_df verbatim, without any drop_duplicates. -/
def save_jobs_to_csv (store : Option (List Row)) (jobs : List RawJob) :
    Option (List Row) × Option Nat :=
  if jobs.isEmpty then (store, none)
  else
    let newRows := jobs.map rowOfJobScraper
    match store with
    | some old =>
        let combined := drop_duplicates_by_link (old ++ newRows)
        (some combined, some combined.length)
    | none => (some newRows, some newRows.length)

/-- ASCII lowering of a string, modelling the Python lower method on the
character data (Char.toLower maps the ASCII uppercase range). -/
def pyLower (s : String) : String := ⟨s.data.map Char.toLower⟩

/-- Python strip with no argument: remove whitespace from both ends. -/
def pyStrip (s : String) : String :=
  ⟨((s.data.dropWhile Char.isWhitespace).reverse.dropWhile
      Char.isWhitespace).reverse⟩

/-- Python split on a comma: splitComma over the character data; the empty
string yields the singleton list holding the empty group, as in Python. -/
def splitComma : List Char → List (List Char)
  | [] => [[]]
  | c :: rest =>
      let r := splitComma rest
      if c = ',' then [] :: r
      else
        match r with
        | [] => [[c]]
        | g :: gs => (c :: g) :: gs

/-- Python split(",") on a string. -/
def pySplitComma (s : String) : List String := (splitComma s.data).map List.asString

/-- Python substring membership test (the in operator) on character
lists: the needle occurs contiguously in the haystack. -/
def substrB (needle : List Char) : List Char → Bool
  | [] => needle.isEmpty
  | c :: rest => needle.isPrefixOf (c :: rest) || substrB needle rest

/-- Python substring membership on strings. -/
def pyIn (needle haystack : String) : Bool := substrB needle.data haystack.data

/-- The keyword list built by scheduled_scrape (main.py line 71): split the
CV Keywords cell on commas, keep the entries whose strip is non-empty, and
map each to its stripped, lowered form. -/
def parseKeywords (cv : String) : List String :=
  ((pySplitComma cv).filter (fun k => pyStrip k ≠ "")).map
    (fun k => pyLower (pyStrip k))

/-- The text a keyword is matched against (main.py line 75): the lowered
concatenation of the title and description values, with empty-string
defaults for missing keys. -/
def jobText (j : RawJob) : String :=
  pyLower (j.title.getD "" ++ j.description.getD "")

/-- The keyword filter of scheduled_scrape (main.py lines 72 to 76): when
the keyword list is empty the jobs pass through unchanged, otherwise a job
is kept exactly when some keyword occurs in its lowered title and
description text. -/
def keywordFilter (keywords : List String) (jobs : List RawJob) : List RawJob :=
  if keywords.isEmpty then jobs
  else jobs.filter (fun j => keywords.any (fun k => pyIn k (jobText j)))

/-- One client of the roster, as stored in clients_data by
fetch_clients_from_airtable. -/
structure ClientInfo where
  name : String
  profession : String
  location : String
  scrape_time : String
  cv_keywords : String
  last_run : String
  last_count : Nat
deriving DecidableEq

/-- Observable outcome of one call of scheduled_scrape (main.py lines 65 to
97): the q parameter the provider receives, the error the scraper logged
(none on success), the rows written to the per-client CSV, and the updated
client metadata. -/
structure ScrapeRun where
  sentQuery : String
  scrapeError : Option String
  storeRows : List Row
  client : ClientInfo
deriving DecidableEq

/-- Embedding of scheduled_scrape (main.py lines 65 to 97). The query is
built from the profession and location; run_scraper is called with the
default region; the jobs are keyword filtered; df.to_csv replaces the whole
per-client file with the rows of the filtered jobs, and the client metadata
records the filtered count and the run timestamp (now). -/
def scheduled_scrape (client : ClientInfo) (resp : ProviderResponse)
    (now : String) : ScrapeRun :=
  let query := client.profession ++ " jobs " ++ client.location
  let scraped := run_scraper query defaultRegion resp
  let jobs := keywordFilter (parseKeywords client.cv_keywords) scraped.1
  { sentQuery := serpApiQ query defaultRegion
    scrapeError := scraped.2
    storeRows := jobs.map rowOfJobMain
    client := { client with last_run := now, last_count := jobs.length } }

/-- Contents of the per-client CSV after one run of scheduled_scrape,
starting from the previous contents prev: df.to_csv(filename) rewrites the
file from the new rows alone, so prev does not appear in the result. -/
def storeAfterRun (prev : List Row) (client : ClientInfo)
    (resp : ProviderResponse) (now : String) : List Row :=
  (scheduled_scrape client resp now).storeRows

/-- Query selection step of api_scrape (main.py lines 336 to 343): a blank
override (empty after strip, which Python treats as falsy) is replaced by
the profession, the word jobs, and the location; any other override is
returned unchanged. -/
def api_scrape_query (clientInfo : ClientInfo) (query : String) : String :=
  if pyStrip query = "" then
    clientInfo.profession ++ " jobs " ++ clientInfo.location
  else query

/-- Fields of one Airtable record, as read by fetch_clients_from_airtable:
each is the value under the corresponding column name, none when absent. -/
structure AirtableFields where
  name : Option String := none
  profession : Option String := none
  location : Option String := none
  scrape_time : Option String := none
  cv_keywords : Option String := none
deriving DecidableEq

/-- One record of the Airtable response. -/
structure AirtableRecord where
  fields : AirtableFields
deriving DecidableEq

/-- The HTTP response of the Airtable roster request: a status code and the
records of the body (empty when the key is absent). -/
structure AirtableResponse where
  status_code : Nat
  records : List AirtableRecord
deriving DecidableEq

/-- The clients_data dictionary: an insertion-ordered map from client name
to client info, as a list of pairs with unique keys. -/
abbrev Roster := List (String × ClientInfo)

/-- Python dictionary assignment on the roster: an existing key keeps its
position and gets the new value, a new key is appended. -/
def dictInsert (d : Roster) (k : String) (v : ClientInfo) : Roster :=
  if d.any (fun p => p.1 == k) then
    d.map (fun p => if p.1 = k then (k, v) else p)
  else d ++ [(k, v)]

/-- Python dictionary get on the roster (clients_data.get). -/
def dictGet (d : Roster) (k : String) : Option ClientInfo :=
  match d with
  | [] => none
  | p :: rest => if p.1 = k then some p.2 else dictGet rest k

/-- The client entry built from one Airtable record (main.py lines 43 to
58), with the defaults of fields.get: Unknown profession, New Zealand
location, 08:00 scrape time, empty CV keywords, Never last run, count 0. -/
def clientOfFields (f : AirtableFields) (name : String) : ClientInfo :=
  { name := name
    profession := f.profession.getD "Unknown"
    location := f.location.getD "New Zealand"
    scrape_time := f.scrape_time.getD "08:00"
    cv_keywords := f.cv_keywords.getD ""
    last_run := "Never"
    last_count := 0 }

/-- The roster accumulation loop of fetch_clients_from_airtable: records
are processed in order and a record is inserted only when its Name value is
truthy (present and non-empty). -/
def buildRoster : List AirtableRecord → Roster → Roster
  | [], acc => acc
  | r :: rest, acc =>
      match r.fields.name with
      | some n =>
          if n = "" then buildRoster rest acc
          else buildRoster rest (dictInsert acc n (clientOfFields r.fields n))
      | none => buildRoster rest acc

/-- Embedding of fetch_clients_from_airtable (main.py lines 30 to 62). The
prev argument is the clients_data dictionary before the call. A non-200
status prints the error and returns before clients_data is touched, leaving
the previous roster in place; a 200 status rebuilds clients_data from
scratch out of the records. -/
def fetch_clients_from_airtable (prev : Roster) (resp : AirtableResponse) :
    Roster :=
  if resp.status_code ≠ 200 then prev
  else buildRoster resp.records []

/-- Python replace of every underscore by a space, as performed on the
client parameter by run_now (main.py line 375). -/
def pyReplaceUnderscore (s : String) : String :=
  ⟨s.data.map (fun c => if c = '_' then ' ' else c)⟩

/-- Observable outcome of the run_now endpoint: either the pipeline ran for
the resolved roster entry (followed by a redirect to the status page), or
the 404 response with the Client not found error was returned. -/
inductive RunNowResult where
  | ran (name : String) (info : ClientInfo)
  | clientNotFound
deriving DecidableEq

/-- Embedding of run_now (main.py lines 373 to 381): underscores of the
client parameter are replaced by spaces, the result is looked up in
clients_data, and scheduled_scrape runs for the found entry, otherwise the
404 error is returned. -/
def run_now (roster : Roster) (client : String) : RunNowResult :=
  let key := pyReplaceUnderscore client
  match dictGet roster key with
  | some info => .ran key info
  | none => .clientNotFound

/-- Application links of a row list, in order. -/
def linksOf (rows : List Row) : List (Option String) :=
  rows.map (fun r => r.applicationWeblink)

/-- Merge behaviour stated by the specification for the dedup merge store:
build the set of application links already present in the store, then
append each new row whose link is not in the set, in input order, updating
the set as it goes, first occurrence wins. Written from the words of the
specification, to be compared with save_jobs_to_csv. -/
def claimedMerge (old newRows : List Row) : List Row :=
  old ++ dropDupAux (linksOf old) newRows

/-- Set of links seen after dropDupAux has scanned a row list: the links it
kept, on top of the initial seen set. -/
def seenAcc (seen : List (Option String)) : List Row → List (Option String)
  | [] => seen
  | r :: rs =>
      if r.applicationWeblink ∈ seen then seenAcc seen rs
      else seenAcc (r.applicationWeblink :: seen) rs

/-- Test posting with application link L1. -/
def jDup : RawJob := { title := some "T", job_apply_link := some "L1" }

/-- Row written for jDup by save_jobs_to_csv. -/
def rDup : Row := rowOfJobScraper jDup

/-- Stored row with link L1. -/
def rL1 : Row :=
  { jobTitle := some "t1", companyName := some "c1"
    applicationWeblink := some "L1", location := some "x1" }

/-- Stored row with link L2. -/
def rL2 : Row :=
  { jobTitle := some "t2", companyName := some "c2"
    applicationWeblink := some "L2", location := some "x2" }

/-- New posting with link L2, a duplicate of the stored row rL2. -/
def jL2 : RawJob :=
  { title := some "t2", company_name := some "c2"
    job_apply_link := some "L2", location := some "x2" }

/-- New posting with link L3. -/
def jL3 : RawJob :=
  { title := some "t3", company_name := some "c3"
    job_apply_link := some "L3", location := some "x3" }

/-- Provider job under the key names read by main.py. -/
def jL9 : RawJob :=
  { title := some "t9", company := some "c9"
    link := some "L9", location := some "x9" }

/-- Jane Doe, Electrician in Auckland, no CV keywords. -/
def cClient : ClientInfo :=
  { name := "Jane Doe", profession := "Electrician", location := "Auckland"
    scrape_time := "08:00", cv_keywords := "", last_run := "Never"
    last_count := 0 }

/-- Posting whose title is Registered NURSE. -/
def nurseJob : RawJob := { title := some "Registered NURSE" }

/-- Provider job dictionary with every key absent. -/
def emptyJob : RawJob := {}

/-- Airtable record for a fresh client. -/
def recNew : AirtableRecord := ⟨{ name := some "New Guy" }⟩

/-- Roster whose single client name holds an underscore. -/
def rosterU : Roster := [("a_b", cClient)]

theorem linksOf_nil : linksOf [] = [] := rfl

theorem linksOf_cons (r : Row) (rs : List Row) :
    linksOf (r :: rs) = r.applicationWeblink :: linksOf rs := rfl

theorem linksOf_append (a b : List Row) :
    linksOf (a ++ b) = linksOf a ++ linksOf b := List.map_append _ a b

/-- Scanning a concatenation: the second part is scanned with the seen set
accumulated over the first part. -/
theorem dropDupAux_append (seen : List (Option String)) (xs zs : List Row) :
    dropDupAux seen (xs ++ zs)
      = dropDupAux seen xs ++ dropDupAux (seenAcc seen xs) zs := by
  induction xs generalizing seen with
  | nil => simp [dropDupAux, seenAcc]
  | cons r rs ih =>
      by_cases h : r.applicationWeblink ∈ seen
      · simp [dropDupAux, seenAcc, h, ih]
      · simp [dropDupAux, seenAcc, h, ih]

/-- Membership in the accumulated seen set. -/
theorem mem_seenAcc (xs : List Row) (seen : List (Option String))
    (l : Option String) :
    l ∈ seenAcc seen xs ↔ l ∈ seen ∨ l ∈ linksOf xs := by
  induction xs generalizing seen with
  | nil => simp [seenAcc, linksOf]
  | cons r rs ih =>
      by_cases h : r.applicationWeblink ∈ seen
      · rw [seenAcc, if_pos h, ih, linksOf_cons, List.mem_cons]
        constructor
        · rintro (hs | hr)
          · exact Or.inl hs
          · exact Or.inr (Or.inr hr)
        · rintro (hs | rfl | hr)
          · exact Or.inl hs
          · exact Or.inl h
          · exact Or.inr hr
      · rw [seenAcc, if_neg h, ih, linksOf_cons, List.mem_cons, List.mem_cons]
        constructor
        · rintro ((rfl | hs) | hr)
          · exact Or.inr (Or.inl rfl)
          · exact Or.inl hs
          · exact Or.inr (Or.inr hr)
        · rintro (hs | rfl | hr)
          · exact Or.inl (Or.inr hs)
          · exact Or.inl (Or.inl rfl)
          · exact Or.inr hr

/-- dropDupAux only looks at membership in the seen set. -/
theorem dropDupAux_congr (s t : List (Option String)) (xs : List Row)
    (h : ∀ l, l ∈ s ↔ l ∈ t) : dropDupAux s xs = dropDupAux t xs := by
  induction xs generalizing s t with
  | nil => rfl
  | cons r rs ih =>
      by_cases hm : r.applicationWeblink ∈ s
      · rw [dropDupAux, if_pos hm, dropDupAux, if_pos ((h _).mp hm)]
        exact ih s t h
      · rw [dropDupAux, if_neg hm, dropDupAux,
          if_neg (fun c => hm ((h _).mpr c))]
        refine congrArg (r :: ·) (ih _ _ (fun l => ?_))
        rw [List.mem_cons, List.mem_cons, h l]

/-- A scan keeps a row list untouched when its links are fresh for the seen
set and duplicate-free among themselves. -/
theorem dropDupAux_eq_self (seen : List (Option String)) (xs : List Row)
    (hfresh : ∀ r ∈ xs, r.applicationWeblink ∉ seen)
    (hnd : (linksOf xs).Nodup) : dropDupAux seen xs = xs := by
  induction xs generalizing seen with
  | nil => rfl
  | cons r rs ih =>
      have hhead := List.nodup_cons.mp (by simpa [linksOf_cons] using hnd)
      rw [dropDupAux, if_neg (hfresh r (by simp))]
      refine congrArg (r :: ·) (ih _ (fun x hx => ?_) hhead.2)
      rw [List.mem_cons]
      rintro (heq | hseen)
      · exact hhead.1 (heq ▸ List.mem_map_of_mem _ hx)
      · exact hfresh x (List.mem_cons_of_mem r hx) hseen

/-- A scan drops everything when every link is already seen. -/
theorem dropDupAux_eq_nil (seen : List (Option String)) (xs : List Row)
    (h : ∀ r ∈ xs, r.applicationWeblink ∈ seen) : dropDupAux seen xs = [] := by
  induction xs with
  | nil => rfl
  | cons r rs ih =>
      rw [dropDupAux, if_pos (h r (by simp))]
      exact ih (fun x hx => h x (List.mem_cons_of_mem r hx))

/-- Links of a scan result: those of the input that were not already
seen. -/
theorem mem_links_dropDupAux (seen : List (Option String)) (xs : List Row)
    (l : Option String) :
    l ∈ linksOf (dropDupAux seen xs) ↔ l ∈ linksOf xs ∧ l ∉ seen := by
  induction xs generalizing seen with
  | nil => simp [dropDupAux, linksOf]
  | cons r rs ih =>
      by_cases h : r.applicationWeblink ∈ seen
      · rw [dropDupAux, if_pos h, ih, linksOf_cons, List.mem_cons]
        constructor
        · rintro ⟨h1, h2⟩
          exact ⟨Or.inr h1, h2⟩
        · rintro ⟨h1 | h1, h2⟩
          · exact absurd (h1 ▸ h) h2
          · exact ⟨h1, h2⟩
      · rw [dropDupAux, if_neg h, linksOf_cons, List.mem_cons, ih,
          linksOf_cons, List.mem_cons, List.mem_cons]
        constructor
        · rintro (rfl | ⟨h1, h2⟩)
          · exact ⟨Or.inl rfl, h⟩
          · exact ⟨Or.inr h1, fun c => h2 (Or.inr c)⟩
        · rintro ⟨h1 | h1, h2⟩
          · exact Or.inl h1
          · by_cases he : l = r.applicationWeblink
            · exact Or.inl he
            · refine Or.inr ⟨h1, ?_⟩
              rintro (hc | hc)
              · exact he hc
              · exact h2 hc

/-- The links of a scan result are duplicate-free. -/
theorem nodup_links_dropDupAux (seen : List (Option String)) (xs : List Row) :
    (linksOf (dropDupAux seen xs)).Nodup := by
  induction xs generalizing seen with
  | nil => simp [dropDupAux, linksOf]
  | cons r rs ih =>
      by_cases h : r.applicationWeblink ∈ seen
      · rw [dropDupAux, if_pos h]
        exact ih seen
      · rw [dropDupAux, if_neg h, linksOf_cons]
        refine List.nodup_cons.mpr ⟨fun c => ?_, ih _⟩
        exact ((mem_links_dropDupAux _ _ _).mp c).2 (List.mem_cons_self _ _)

/-- The region default makes the provider query end in New Zealand. -/
theorem serpApiQ_default (q : String) :
    serpApiQ q defaultRegion = q ++ " New Zealand" := by
  unfold serpApiQ defaultRegion
  rw [String.append_assoc]
  exact congrArg (fun z => q ++ z) rfl

/-- C1 (counterexample). The claim fails on a store whose CSV file does not
exist yet: save_jobs_to_csv then writes the batch verbatim, so a batch
holding the same application link L1 twice is stored twice, where the
claimed merge would have kept only the first occurrence and returned 1,
not 2. -/
theorem merge_fresh_keeps_batch_duplicates :
    save_jobs_to_csv none [jDup, jDup] = (some [rDup, rDup], some 2)
    ∧ claimedMerge [] [rDup, rDup] = [rDup]
    ∧ ([rDup, rDup] : List Row) ≠ [rDup] := by
  refine ⟨by decide, by decide, by decide⟩

/-- C1 (amended). Provided the client store file exists and its application
links are duplicate-free, merging a non-empty batch appends exactly those
new postings whose link is not already present, checking the links of the
existing store and of earlier postings in the same batch with the first
occurrence winning, preserves input order, and returns the size of the
final collection: save_jobs_to_csv agrees with the merge the specification
describes (claimedMerge) and reports its length. -/
theorem merge_existing_matches_claim (old : List Row) (jobs : List RawJob)
    (hnd : (linksOf old).Nodup) (hne : jobs ≠ []) :
    save_jobs_to_csv (some old) jobs
      = (some (claimedMerge old (jobs.map rowOfJobScraper)),
         some (claimedMerge old (jobs.map rowOfJobScraper)).length) := by
  have hje : jobs.isEmpty = false := by
    cases jobs with
    | nil => exact absurd rfl hne
    | cons a l => rfl
  have key : drop_duplicates_by_link (old ++ jobs.map rowOfJobScraper)
      = claimedMerge old (jobs.map rowOfJobScraper) := by
    unfold drop_duplicates_by_link claimedMerge
    rw [dropDupAux_append, dropDupAux_eq_self [] old (by simp) hnd]
    refine congrArg (old ++ ·) (dropDupAux_congr _ _ _ (fun l => ?_))
    rw [mem_seenAcc]
    simp
  simp [save_jobs_to_csv, hje, key]

/-- C1 (witness): the scenario of the specification. A store holding links
L1 and L2 merged with the batch holding links L2 and L3 yields the store
with links L1, L2, L3 and the count 3. -/
theorem merge_existing_matches_claim_scenario :
    save_jobs_to_csv (some [rL1, rL2]) [jL2, jL3]
      = (some [rL1, rL2, rowOfJobScraper jL3], some 3) := by
  rw [merge_existing_matches_claim [rL1, rL2] [jL2, jL3] (by decide) (by decide)]
  decide

/-- C2 (code bug). The per-client pipeline does not merge: df.to_csv in
scheduled_scrape replaces the whole per-client CSV with the rows of the
latest batch, so the store size decreases whenever a run returns fewer
postings than are stored. Here a store holding two rows is replaced by the
single row of the next run. -/
theorem store_size_decreases_across_runs :
    storeAfterRun [rL1, rL2] cClient (.ok (some [jL9])) "2026-10-12 08:00"
      = [rowOfJobMain jL9]
    ∧ (storeAfterRun [rL1, rL2] cClient (.ok (some [jL9]))
        "2026-10-12 08:00").length = 1
    ∧ ([rL1, rL2] : List Row).length = 2 := by
  refine ⟨by decide, by decide, by decide⟩

/-- C3 (counterexample). Starting from a store whose file does not exist,
merging the batch that holds the link L1 twice stores both copies, so the
result of merging once has two postings with the same application link, and
merging the same batch a second time collapses them, changing the store
contents. -/
theorem merge_twice_differs_on_fresh_store :
    (save_jobs_to_csv none [jDup, jDup]).1 = some [rDup, rDup]
    ∧ (save_jobs_to_csv (save_jobs_to_csv none [jDup, jDup]).1
        [jDup, jDup]).1 = some [rDup]
    ∧ (some [rDup, rDup] : Option (List Row)) ≠ some [rDup]
    ∧ ¬ (linksOf [rDup, rDup]).Nodup := by
  refine ⟨by decide, by decide, by decide, by decide⟩

/-- C3 (amended). Provided the client store file already exists, merging a
non-empty batch twice in succession returns exactly the result of merging
it once (same stored contents and same reported count), and the store after
the first merge contains no two postings with the same application link. -/
theorem merge_idempotent_on_existing_store (old : List Row)
    (jobs : List RawJob) (hne : jobs ≠ []) :
    save_jobs_to_csv (save_jobs_to_csv (some old) jobs).1 jobs
        = save_jobs_to_csv (some old) jobs
    ∧ ∃ rows, (save_jobs_to_csv (some old) jobs).1 = some rows
        ∧ (linksOf rows).Nodup := by
  have hje : jobs.isEmpty = false := by
    cases jobs with
    | nil => exact absurd rfl hne
    | cons a l => rfl
  have h1 : save_jobs_to_csv (some old) jobs
      = (some (dropDupAux [] (old ++ jobs.map rowOfJobScraper)),
         some (dropDupAux [] (old ++ jobs.map rowOfJobScraper)).length) := by
    simp [save_jobs_to_csv, hje, drop_duplicates_by_link]
  have hnodup : (linksOf (dropDupAux [] (old ++ jobs.map rowOfJobScraper))).Nodup :=
    nodup_links_dropDupAux _ _
  have hX : dropDupAux []
      (dropDupAux [] (old ++ jobs.map rowOfJobScraper)
        ++ jobs.map rowOfJobScraper)
      = dropDupAux [] (old ++ jobs.map rowOfJobScraper) := by
    rw [dropDupAux_append, dropDupAux_eq_self [] _ (by simp) hnodup]
    have hz : dropDupAux
        (seenAcc [] (dropDupAux [] (old ++ jobs.map rowOfJobScraper)))
        (jobs.map rowOfJobScraper) = [] := by
      refine dropDupAux_eq_nil _ _ (fun r hr => ?_)
      rw [mem_seenAcc]
      refine Or.inr ?_
      rw [mem_links_dropDupAux]
      refine ⟨?_, by simp⟩
      rw [linksOf_append]
      exact List.mem_append_right _ (List.mem_map_of_mem _ hr)
    rw [hz, List.append_nil]
  refine ⟨?_, ⟨_, by rw [h1], hnodup⟩⟩
  rw [h1]
  simp only [save_jobs_to_csv, hje, Bool.false_eq_true, if_false,
    drop_duplicates_by_link]
  rw [hX]

/-- C3 (witness): merging the batch with link L2 into the existing store
holding link L1, twice, equals merging it once, and the merged store links
are duplicate-free. -/
theorem merge_idempotent_on_existing_store_w :
    save_jobs_to_csv (save_jobs_to_csv (some [rL1]) [jL2]).1 [jL2]
        = save_jobs_to_csv (some [rL1]) [jL2]
    ∧ ∃ rows, (save_jobs_to_csv (some [rL1]) [jL2]).1 = some rows
        ∧ (linksOf rows).Nodup :=
  merge_idempotent_on_existing_store [rL1] [jL2] (by decide)

/-- C4. On every transport failure, non-success response, or malformed
payload, run_scraper returns the empty posting list together with the
descriptive error it logs (it catches every exception, so by totality of
this embedding nothing is raised past its boundary), and the pipeline run
then still updates the client metadata with result count 0 and the run
timestamp (no exception propagates to the scheduler), with an empty row
list written to the store. -/
theorem provider_failure_gives_empty_and_count_zero (client : ClientInfo)
    (q l now : String) (resp : ProviderResponse) (h : resp.fails = true) :
    (run_scraper q l resp).1 = []
    ∧ (∃ e, (run_scraper q l resp).2 = some ("Error during scraping: " ++ e))
    ∧ (scheduled_scrape client resp now).client.last_count = 0
    ∧ (scheduled_scrape client resp now).client.last_run = now
    ∧ (scheduled_scrape client resp now).storeRows = [] := by
  have kf : ∀ kws : List String, keywordFilter kws [] = [] := by
    intro kws
    unfold keywordFilter
    split <;> simp
  cases resp with
  | transportError m =>
      exact ⟨rfl, ⟨m, rfl⟩, by simp [scheduled_scrape, run_scraper, kf],
        by simp [scheduled_scrape], by simp [scheduled_scrape, run_scraper, kf]⟩
  | httpError s m =>
      exact ⟨rfl, ⟨m, rfl⟩, by simp [scheduled_scrape, run_scraper, kf],
        by simp [scheduled_scrape], by simp [scheduled_scrape, run_scraper, kf]⟩
  | badJson m =>
      exact ⟨rfl, ⟨m, rfl⟩, by simp [scheduled_scrape, run_scraper, kf],
        by simp [scheduled_scrape], by simp [scheduled_scrape, run_scraper, kf]⟩
  | ok jr => simp [ProviderResponse.fails] at h

/-- C4 (witness): a 500 response for Jane Doe yields the empty list, the
logged error, a recorded count of 0, the recorded timestamp, and an empty
store write. -/
theorem provider_failure_gives_empty_and_count_zero_w :
    (run_scraper "q" "New Zealand" (.httpError 500 "boom")).1 = []
    ∧ (∃ e, (run_scraper "q" "New Zealand" (.httpError 500 "boom")).2
        = some ("Error during scraping: " ++ e))
    ∧ (scheduled_scrape cClient (.httpError 500 "boom") "t").client.last_count = 0
    ∧ (scheduled_scrape cClient (.httpError 500 "boom") "t").client.last_run = "t"
    ∧ (scheduled_scrape cClient (.httpError 500 "boom") "t").storeRows = [] :=
  provider_failure_gives_empty_and_count_zero cClient "q" "New Zealand" "t"
    (.httpError 500 "boom") rfl

/-- C5. The keyword filter is the identity on an empty keyword list;
otherwise a posting is kept exactly when at least one keyword occurs in the
lowered concatenation of its title and description (keywords are stripped
and lowered by parseKeywords, as the concrete conjunct shows); the output
is a sublist of the input, so relative order is preserved; and the keyword
nurse matches the posting titled Registered NURSE. -/
theorem keyword_filter_spec (keywords : List String) (jobs : List RawJob)
    (j : RawJob) (hk : keywords ≠ []) :
    keywordFilter [] jobs = jobs
    ∧ (j ∈ keywordFilter keywords jobs ↔
        j ∈ jobs ∧ keywords.any (fun k => pyIn k (jobText j)) = true)
    ∧ (keywordFilter keywords jobs).Sublist jobs
    ∧ parseKeywords " Nurse " = ["nurse"]
    ∧ keywordFilter ["nurse"] [nurseJob] = [nurseJob] := by
  have hke : keywords.isEmpty = false := by
    cases keywords with
    | nil => exact absurd rfl hk
    | cons a l => rfl
  refine ⟨by simp [keywordFilter], ?_, ?_, by decide, by decide⟩
  · rw [keywordFilter, hke]
    simp [List.mem_filter]
  · rw [keywordFilter, hke]
    simp only [Bool.false_eq_true, if_false]
    exact List.filter_sublist jobs

/-- C5 (witness): the filter at the concrete nurse input. -/
theorem keyword_filter_spec_w :
    keywordFilter [] [nurseJob] = [nurseJob]
    ∧ (nurseJob ∈ keywordFilter ["nurse"] [nurseJob] ↔
        nurseJob ∈ [nurseJob]
          ∧ (["nurse"].any (fun k => pyIn k (jobText nurseJob)) = true))
    ∧ (keywordFilter ["nurse"] [nurseJob]).Sublist [nurseJob]
    ∧ parseKeywords " Nurse " = ["nurse"]
    ∧ keywordFilter ["nurse"] [nurseJob] = [nurseJob] :=
  keyword_filter_spec ["nurse"] [nurseJob] nurseJob (by decide)

/-- C6 (counterexample). The override made of a single space is a non-empty
string, yet the query builder does not return it unchanged: api_scrape
replaces every override that is blank after strip. -/
theorem blank_override_not_returned_unchanged :
    (" " : String) ≠ ""
    ∧ api_scrape_query cClient " " = "Electrician jobs Auckland"
    ∧ api_scrape_query cClient " " ≠ " " := by
  refine ⟨by decide, by decide, by decide⟩

/-- C6 (amended). An override that is non-blank (non-empty after stripping
whitespace) is returned unchanged; an empty or whitespace-only override is
replaced by the profession, the word jobs, and the location; in particular
profession Electrician and location Auckland with no override yields
Electrician jobs Auckland. There are no error conditions: the function is
total. -/
theorem query_builder_spec (c : ClientInfo) (q : String) :
    (pyStrip q ≠ "" → api_scrape_query c q = q)
    ∧ (pyStrip q = "" → api_scrape_query c q
        = c.profession ++ " jobs " ++ c.location)
    ∧ api_scrape_query cClient "" = "Electrician jobs Auckland" := by
  refine ⟨?_, ?_, by decide⟩
  · intro h
    simp [api_scrape_query, h]
  · intro h
    simp [api_scrape_query, h]

/-- C6 (witness): a non-blank override passes through, a blank one is
replaced. -/
theorem query_builder_spec_w :
    api_scrape_query cClient "plumber" = "plumber"
    ∧ api_scrape_query cClient " " = cClient.profession ++ " jobs " ++ cClient.location :=
  ⟨(query_builder_spec cClient "plumber").1 (by decide),
   (query_builder_spec cClient " ").2.1 (by decide)⟩

/-- C7 (counterexample). The provider adapter performs no normalization: a
job record with every key absent is returned exactly as received, its title
field is absent rather than the empty string, and the canonical row built
from it downstream carries none (NaN in the CSV), not the empty string. -/
theorem adapter_missing_field_not_empty_string :
    (run_scraper "q" defaultRegion (.ok (some [emptyJob]))).1 = [emptyJob]
    ∧ emptyJob.title = none
    ∧ (rowOfJobMain emptyJob).jobTitle = none
    ∧ (rowOfJobMain emptyJob).jobTitle ≠ some "" := by
  refine ⟨rfl, rfl, rfl, by decide⟩

/-- C7 (amended). run_scraper returns the jobs_results payload unchanged,
with no field normalization at the adapter boundary; mapping into the
canonical row shape happens only at CSV-writing time (scraper.py under the
keys company_name and job_apply_link, main.py under the keys company and
link), and a missing field stays absent there (none, stored as NaN), never
becoming the empty string. -/
theorem adapter_returns_raw_jobs (q l : String) (jobs : List RawJob)
    (j : RawJob) (ht : j.title = none) :
    (run_scraper q l (.ok (some jobs))).1 = jobs
    ∧ (rowOfJobScraper j).jobTitle = none
    ∧ (rowOfJobMain j).jobTitle = none := by
  refine ⟨rfl, ?_, ?_⟩ <;> simp [rowOfJobScraper, rowOfJobMain, ht]

/-- C7 (witness): the all-absent job record flows through unchanged. -/
theorem adapter_returns_raw_jobs_w :
    (run_scraper "q" "New Zealand" (.ok (some [emptyJob]))).1 = [emptyJob]
    ∧ (rowOfJobScraper emptyJob).jobTitle = none
    ∧ (rowOfJobMain emptyJob).jobTitle = none :=
  adapter_returns_raw_jobs "q" "New Zealand" [emptyJob] emptyJob rfl

/-- C8. A failed directory refresh (any non-200 status) returns before
clients_data is touched: the previously loaded roster is left exactly as it
was, neither cleared nor partially modified, whatever records the failing
response carried. -/
theorem directory_refresh_failure_keeps_roster (prev : Roster)
    (resp : AirtableResponse) (h : resp.status_code ≠ 200) :
    fetch_clients_from_airtable prev resp = prev := by
  simp [fetch_clients_from_airtable, h]

/-- C8 (witness): a 403 response carrying a record leaves the loaded roster
unchanged. -/
theorem directory_refresh_failure_keeps_roster_w :
    fetch_clients_from_airtable [("Jane Doe", cClient)] ⟨403, [recNew]⟩
      = [("Jane Doe", cClient)] :=
  directory_refresh_failure_keeps_roster [("Jane Doe", cClient)]
    ⟨403, [recNew]⟩ (by decide)

/-- C9. run_now replaces every underscore of the client parameter by a
space before the roster lookup: a roster entry whose stored name holds an
underscore can never be the one resolved, whatever the parameter; when the
lookup of the rewritten name fails the 404 Client not found is returned,
and when it succeeds the run is performed for exactly the client whose name
equals the parameter with underscores replaced by spaces. -/
theorem run_now_replaces_underscores (roster : Roster) (p name : String)
    (h : '_' ∈ name.data) :
    (∀ info, run_now roster p ≠ .ran name info)
    ∧ (dictGet roster (pyReplaceUnderscore p) = none →
        run_now roster p = .clientNotFound)
    ∧ (∀ info, dictGet roster (pyReplaceUnderscore p) = some info →
        run_now roster p = .ran (pyReplaceUnderscore p) info) := by
  have hno : '_' ∉ (pyReplaceUnderscore p).data := by
    intro hmem
    have hx : ∃ c, c ∈ p.data ∧ (if c = '_' then ' ' else c) = '_' := by
      simpa [pyReplaceUnderscore, List.mem_map] using hmem
    obtain ⟨c, _, hc⟩ := hx
    by_cases hcc : c = '_'
    · simp [hcc] at hc
    · rw [if_neg hcc] at hc
      exact hcc hc
  refine ⟨?_, ?_, ?_⟩
  · intro info heq
    simp only [run_now] at heq
    cases hd : dictGet roster (pyReplaceUnderscore p) with
    | none => simp [hd] at heq
    | some i =>
        simp only [hd, RunNowResult.ran.injEq] at heq
        exact hno (heq.1 ▸ h)
  · intro hd
    simp [run_now, hd]
  · intro info hd
    simp [run_now, hd]

/-- C9 (witness): the roster stores the name a_b; the endpoint called with
the parameter a_b rewrites it to a b, fails the lookup, and returns the
404, never running the stored client. -/
theorem run_now_replaces_underscores_w :
    run_now rosterU "a_b" ≠ .ran "a_b" cClient
    ∧ run_now rosterU "a_b" = .clientNotFound :=
  ⟨(run_now_replaces_underscores rosterU "a_b" "a_b" (by decide)).1 cClient,
   (run_now_replaces_underscores rosterU "a_b" "a_b" (by decide)).2.1 (by decide)⟩

/-- C10. run_scraper sends the q parameter query followed by a space and
its location argument, which defaults to New Zealand; the scheduled
pipeline passes no region and already embeds the client location in the
query, so whatever the client profile, the provider receives the client
query (profession, the word jobs, the location) followed by the text New
Zealand. -/
theorem provider_receives_region_suffix (client : ClientInfo)
    (resp : ProviderResponse) (now q : String) :
    serpApiQ q defaultRegion = q ++ " New Zealand"
    ∧ (scheduled_scrape client resp now).sentQuery
        = client.profession ++ " jobs " ++ client.location ++ " New Zealand" := by
  refine ⟨serpApiQ_default q, ?_⟩
  show serpApiQ (client.profession ++ " jobs " ++ client.location) defaultRegion
      = client.profession ++ " jobs " ++ client.location ++ " New Zealand"
  rw [serpApiQ_default]

end SlrcJobAssist
